import Mathlib

/-!
Shallow embedding of the TLS/SSL connection state machine and session-cache
subsystem from crypto/openssl/ssl/ssl_lib.c (FreeBSD contrib OpenSSL).

Modelling conventions:
  * machine integers become Nat (all touched values are small and non-negative);
  * the global error queue consulted by SSL_get_error becomes an explicit
    argument (the peeked packed error code, 0 when the queue is empty);
  * calls through the per-version method table and into the session-store
    helpers that live outside the excerpted file are represented either as an
    Outcome.dispatch value (the state handed to the method table) or as an
    event trace (List CacheEvent), so that the gating logic of ssl_lib.c is
    modelled exactly while the external callee stays abstract;
  * NULL pointers become Option.none.
-/

namespace SslLib

/-- Numeric state, shutdown, rwstate, alert, error-library and cache-mode
constants. Modelled from the spec: these come from the public ssl/err/bio
headers, which are not part of the excerpted source; the claims depend only
on the constants being the particular distinct bit patterns used below. -/
def SSL_ST_CONNECT : Nat := 0x1000

def SSL_ST_ACCEPT : Nat := 0x2000

def SSL_ST_BEFORE : Nat := 0x4000

def SSL_ST_INIT : Nat := SSL_ST_CONNECT ||| SSL_ST_ACCEPT

def SSL_ST_READ_HEADER : Nat := 0xF0

def SSL_SENT_SHUTDOWN : Nat := 1

def SSL_RECEIVED_SHUTDOWN : Nat := 2

def SSL_NOTHING : Nat := 1

def SSL_WRITING : Nat := 2

def SSL_READING : Nat := 3

def SSL_X509_LOOKUP : Nat := 4

def SSL2_VERSION : Nat := 0x0002

def SSL_AD_CLOSE_NOTIFY : Nat := 0

def ERR_LIB_SYS : Nat := 2

def BIO_RR_CONNECT : Nat := 2

def BIO_RR_ACCEPT : Nat := 3

def SSL_SESS_CACHE_CLIENT : Nat := 0x0001

def SSL_SESS_CACHE_SERVER : Nat := 0x0002

def SSL_SESS_CACHE_NO_AUTO_CLEAR : Nat := 0x0080

def SSL_SESS_CACHE_NO_INTERNAL_STORE : Nat := 0x0200

/-- ERR_GET_LIB from the error-library header: the library id occupies the
top byte of a packed error code. -/
def ERR_GET_LIB (l : Nat) : Nat := (l >>> 24) &&& 0xff

/-- Identity of a protocol method table (a pointer in C, compared by
identity in SSL_clear); version is the field read by SSL_clear. -/
structure SSL_METHOD where
  id : Nat
  version : Nat
deriving DecidableEq

/-- The handshake_func function pointer of an SSL: 0 until
SSL_set_connect_state / SSL_set_accept_state installs the method table entry
point for the chosen role. -/
inductive HandshakeFunc where
  | unset
  | connect
  | accept
deriving DecidableEq

/-- Retry-introspection surface of a BIO used by SSL_get_error:
BIO_should_read, BIO_should_write, BIO_should_io_special flags and the
BIO_get_retry_reason code. -/
structure BIO where
  shouldRead : Bool
  shouldWrite : Bool
  shouldIOSpecial : Bool
  retryReason : Nat
deriving DecidableEq

/-- SSL_SESSION fields read by SSL_SESSION_hash and SSL_SESSION_cmp, plus
representative other fields (negotiated cipher id, creation time, timeout)
that the hash and comparison must ignore. The session_id buffer is the fixed
32-byte unsigned char array of the C struct, modelled as a total function to
bytes; session_id_length is the declared length. -/
structure SSL_SESSION where
  ssl_version : Nat
  session_id_length : Nat
  session_id : Nat → Fin 256
  cipher_id : Nat
  time : Nat
  timeout : Nat

/-- SSL_CTX fields read by the modelled SSL functions: the method table, the
session_cache_mode flags, the two per-role successful-handshake statistics
counters, and whether a new-session callback is installed. -/
structure SSL_CTX where
  method : SSL_METHOD
  session_cache_mode : Nat
  sess_connect_good : Nat
  sess_accept_good : Nat
  has_new_session_cb : Bool

/-- SSL connection fields read or written by the modelled functions of
ssl_lib.c. warn_alert stands for s->s3->warn_alert; rbio and wbio are the
transport handles interrogated by SSL_get_error. -/
structure SSL where
  ctx : SSL_CTX
  method : Option SSL_METHOD
  handshake_func : HandshakeFunc
  server : Bool
  state : Nat
  version : Nat
  client_version : Nat
  rwstate : Nat
  rstate : Nat
  shutdown : Nat
  error : Int
  hit : Bool
  new_session : Bool
  in_handshake : Bool
  type : Nat
  first_packet : Nat
  init_buf : Option Nat
  enc_read_ctx : Option Nat
  enc_write_ctx : Option Nat
  expand : Option Nat
  compress : Option Nat
  session : Option SSL_SESSION
  rbio : BIO
  wbio : BIO
  warn_alert : Nat

/-- Error-reason codes pushed by the modelled functions via SSLerr. -/
inductive SslErr where
  | uninitialized
  | protocolIsShutdown
  | noMethodSpecified
  | internalError
deriving DecidableEq

/-- Operations of the per-version method table that the modelled functions
may dispatch to. -/
inductive MethodOp where
  | sslRead
  | sslPeek
  | sslWrite
  | sslShutdown
  | sslConnect
  | sslAccept
  | sslClear
  | sslFree
  | sslNew
deriving DecidableEq

/-- Result of one of the gating wrappers of ssl_lib.c: either it returned
with an error pushed (err, with the returned int and the final connection
state), or it returned a value directly without error (ret), or it
tail-dispatched into the method table (dispatch, with the operation invoked
and the connection state at the moment of the call). A dispatch or ret value
witnesses that no error was raised; an err or ret value witnesses that no
method-table or transport operation was invoked. -/
inductive Outcome where
  | err (e : SslErr) (ret : Int) (s : SSL)
  | ret (r : Int) (s : SSL)
  | dispatch (op : MethodOp) (s : SSL)

/-- Translation of ssl_clear_cipher_ctx (ssl_lib.c lines 2438 to 2464):
frees and NULLs the two symmetric cipher contexts and the two compression
contexts. -/
def ssl_clear_cipher_ctx (s : SSL) : SSL :=
  { s with
    enc_read_ctx := none, enc_write_ctx := none,
    expand := none, compress := none }

/-- Translation of SSL_set_connect_state (ssl_lib.c lines 2262 to 2270). -/
def SSL_set_connect_state (s : SSL) : SSL :=
  ssl_clear_cipher_ctx
    { s with
      server := false, shutdown := 0,
      state := SSL_ST_CONNECT ||| SSL_ST_BEFORE,
      handshake_func := HandshakeFunc.connect }

/-- Translation of SSL_set_accept_state (ssl_lib.c lines 2252 to 2260). -/
def SSL_set_accept_state (s : SSL) : SSL :=
  ssl_clear_cipher_ctx
    { s with
      server := true, shutdown := 0,
      state := SSL_ST_ACCEPT ||| SSL_ST_BEFORE,
      handshake_func := HandshakeFunc.accept }

/-- Translation of SSL_connect (ssl_lib.c lines 873 to 880): when
handshake_func is still 0 the connection is first initialized exactly as by
SSL_set_connect_state, then the call dispatches to the method table ssl_connect. -/
def SSL_connect (s : SSL) : Outcome :=
  let s1 := if s.handshake_func = HandshakeFunc.unset then SSL_set_connect_state s else s
  Outcome.dispatch MethodOp.sslConnect s1

/-- Translation of SSL_accept (ssl_lib.c lines 864 to 871). -/
def SSL_accept (s : SSL) : Outcome :=
  let s1 := if s.handshake_func = HandshakeFunc.unset then SSL_set_accept_state s else s
  Outcome.dispatch MethodOp.sslAccept s1

/-- Translation of SSL_read (ssl_lib.c lines 887 to 901). The buffer and
length arguments are omitted: they are only forwarded to the method table. -/
def SSL_read (s : SSL) : Outcome :=
  if s.handshake_func = HandshakeFunc.unset then
    Outcome.err SslErr.uninitialized (-1) s
  else if s.shutdown &&& SSL_RECEIVED_SHUTDOWN ≠ 0 then
    Outcome.ret 0 {s with rwstate := SSL_NOTHING}
  else
    Outcome.dispatch MethodOp.sslRead s

/-- Translation of SSL_peek (ssl_lib.c lines 903 to 916). -/
def SSL_peek (s : SSL) : Outcome :=
  if s.handshake_func = HandshakeFunc.unset then
    Outcome.err SslErr.uninitialized (-1) s
  else if s.shutdown &&& SSL_RECEIVED_SHUTDOWN ≠ 0 then
    Outcome.ret 0 s
  else
    Outcome.dispatch MethodOp.sslPeek s

/-- Translation of SSL_write (ssl_lib.c lines 918 to 933). -/
def SSL_write (s : SSL) : Outcome :=
  if s.handshake_func = HandshakeFunc.unset then
    Outcome.err SslErr.uninitialized (-1) s
  else if s.shutdown &&& SSL_SENT_SHUTDOWN ≠ 0 then
    Outcome.err SslErr.protocolIsShutdown (-1) {s with rwstate := SSL_NOTHING}
  else
    Outcome.dispatch MethodOp.sslWrite s

/-- Translation of the SSL_in_init state test used by SSL_shutdown: the
composite state has one of the two init bits set. -/
def SSL_in_init (s : SSL) : Bool := s.state &&& SSL_ST_INIT ≠ 0

/-- Translation of SSL_shutdown (ssl_lib.c lines 935 to 953). -/
def SSL_shutdown (s : SSL) : Outcome :=
  if s.handshake_func = HandshakeFunc.unset then
    Outcome.err SslErr.uninitialized (-1) s
  else if ¬ SSL_in_init s then
    Outcome.dispatch MethodOp.sslShutdown s
  else
    Outcome.ret 1 s

/-- Translation of the rbio retry-flag inspection block of SSL_get_error
(ssl_lib.c lines 2162 to 2188); none means the block fell through without
returning. -/
def readRetryBlock (bio : BIO) : Option Nat :=
  if bio.shouldRead then some 2
  else if bio.shouldWrite then some 3
  else if bio.shouldIOSpecial then
    some (if bio.retryReason = BIO_RR_CONNECT then 7
          else if bio.retryReason = BIO_RR_ACCEPT then 8
          else 5)
  else none

/-- Translation of the wbio retry-flag inspection block of SSL_get_error
(ssl_lib.c lines 2190 to 2208). -/
def writeRetryBlock (bio : BIO) : Option Nat :=
  if bio.shouldWrite then some 3
  else if bio.shouldRead then some 2
  else if bio.shouldIOSpecial then
    some (if bio.retryReason = BIO_RR_CONNECT then 7
          else if bio.retryReason = BIO_RR_ACCEPT then 8
          else 5)
  else none

/-- Classification codes returned by SSL_get_error, as the SSL_ERROR
constants of the public header: NONE 0, SSL 1, WANT_READ 2, WANT_WRITE 3,
WANT_X509_LOOKUP 4, SYSCALL 5, ZERO_RETURN 6, WANT_CONNECT 7, WANT_ACCEPT 8. -/
def SSL_ERROR_NONE : Nat := 0

def SSL_ERROR_SSL : Nat := 1

def SSL_ERROR_WANT_READ : Nat := 2

def SSL_ERROR_WANT_WRITE : Nat := 3

def SSL_ERROR_WANT_X509_LOOKUP : Nat := 4

def SSL_ERROR_SYSCALL : Nat := 5

def SSL_ERROR_ZERO_RETURN : Nat := 6

def SSL_ERROR_WANT_CONNECT : Nat := 7

def SSL_ERROR_WANT_ACCEPT : Nat := 8

/-- Translation of SSL_get_error (ssl_lib.c lines 2144 to 2229). The
argument l is the packed error code peeked from the global error queue
(ERR_peek_error), 0 when the queue is empty. The SSL_want_read /
SSL_want_write / SSL_want_x509_lookup macros compare s->rwstate against the
corresponding constant; the C fallthrough structure of the four inner blocks
is rendered with Option.orElse, ending in the final SSL_ERROR_SYSCALL. -/
def SSL_get_error (s : SSL) (l : Nat) (i : Int) : Nat :=
  if i > 0 then SSL_ERROR_NONE
  else if l ≠ 0 then
    (if ERR_GET_LIB l = ERR_LIB_SYS then SSL_ERROR_SYSCALL else SSL_ERROR_SSL)
  else
    let r1 : Option Nat :=
      if i < 0 ∧ s.rwstate = SSL_READING then readRetryBlock s.rbio else none
    let r2 : Option Nat :=
      if i < 0 ∧ s.rwstate = SSL_WRITING then writeRetryBlock s.wbio else none
    let r3 : Option Nat :=
      if i < 0 ∧ s.rwstate = SSL_X509_LOOKUP then some SSL_ERROR_WANT_X509_LOOKUP else none
    let r4 : Option Nat :=
      if i = 0 then
        if s.version = SSL2_VERSION then some SSL_ERROR_ZERO_RETURN
        else if s.shutdown &&& SSL_RECEIVED_SHUTDOWN ≠ 0 ∧ s.warn_alert = SSL_AD_CLOSE_NOTIFY then
          some SSL_ERROR_ZERO_RETURN
        else none
      else none
    ((((r1.orElse (fun _ => r2)).orElse (fun _ => r3)).orElse (fun _ => r4)).getD
      SSL_ERROR_SYSCALL)

/-- Translation of SSL_SESSION_hash (ssl_lib.c lines 1451 to 1461): ORs the
first four bytes of the session id, byte k shifted left 8 k bits. -/
def SSL_SESSION_hash (a : SSL_SESSION) : Nat :=
  ((a.session_id 0 : Nat)) |||
  ((a.session_id 1 : Nat) <<< 8) |||
  ((a.session_id 2 : Nat) <<< 16) |||
  ((a.session_id 3 : Nat) <<< 24)

/-- Byte-range comparison: memcmp of n bytes starting at offset i, returning
0 exactly when all compared bytes agree and the signed difference of the
first differing byte otherwise. -/
def memcmpAux (a b : Nat → Fin 256) (i : Nat) : Nat → Int
  | 0 => 0
  | n + 1 =>
    if a i = b i then memcmpAux a b (i + 1) n
    else ((a i : Nat) : Int) - ((b i : Nat) : Int)

/-- Translation of the memcmp call of SSL_SESSION_cmp on the leading n bytes
of the two session id buffers. -/
def memcmp (a b : Nat → Fin 256) (n : Nat) : Int := memcmpAux a b 0 n

/-- Translation of SSL_SESSION_cmp (ssl_lib.c lines 1468 to 1475): 1 on a
version or length mismatch, else memcmp of the session id bytes; the cache
judges two sessions equal exactly when the result is 0. -/
def SSL_SESSION_cmp (a b : SSL_SESSION) : Int :=
  if a.ssl_version ≠ b.ssl_version then 1
  else if a.session_id_length ≠ b.session_id_length then 1
  else memcmp a.session_id b.session_id a.session_id_length

/-- External effects that ssl_update_cache can trigger; the callees
(SSL_CTX_add_session, the new-session callback, SSL_SESSION_free,
SSL_CTX_flush_sessions) live outside the excerpted file, so the embedding
records the calls made, in order, instead of their bodies. -/
inductive CacheEvent where
  | addSession
  | sessionRefUp
  | newSessionCb
  | sessionFree
  | flushSessions (cutoff : Nat)
deriving DecidableEq

/-- Translation of ssl_update_cache (ssl_lib.c lines 2080 to 2110). addOk is
the return value of SSL_CTX_add_session, cbKeeps the return value of the
new-session callback, now the value of time(NULL); the result is the trace
of external calls made. The C function mutates nothing in s or the cache
directly; every effect goes through one of the recorded calls, so an empty
trace means the cache, its size and the session reference counts are
untouched and no callback ran. -/
def ssl_update_cache (addOk cbKeeps : Bool) (now : Nat) (s : SSL) (mode : Nat) :
    List CacheEvent :=
  match s.session with
  | none => []
  | some sess =>
    if sess.session_id_length = 0 then []
    else
      let i := s.ctx.session_cache_mode
      let addCalled : Bool :=
        i &&& mode ≠ 0 ∧ s.hit = false ∧ i &&& SSL_SESS_CACHE_NO_INTERNAL_STORE = 0
      let condAll : Bool :=
        i &&& mode ≠ 0 ∧ s.hit = false ∧
          (i &&& SSL_SESS_CACHE_NO_INTERNAL_STORE ≠ 0 ∨ addOk = true) ∧
          s.ctx.has_new_session_cb = true
      let ev1 : List CacheEvent :=
        (if addCalled then [CacheEvent.addSession] else []) ++
        (if condAll then
          [CacheEvent.sessionRefUp, CacheEvent.newSessionCb] ++
            (if cbKeeps then [] else [CacheEvent.sessionFree])
         else [])
      let ev2 : List CacheEvent :=
        if i &&& SSL_SESS_CACHE_NO_AUTO_CLEAR = 0 ∧ i &&& mode = mode then
          (if ((if mode &&& SSL_SESS_CACHE_CLIENT ≠ 0 then s.ctx.sess_connect_good
                else s.ctx.sess_accept_good) &&& 0xff) = 0xff then
            [CacheEvent.flushSessions now]
           else [])
        else []
      ev1 ++ ev2

/-- Result of SSL_clear: the returned int, the final connection state, the
error reason pushed (if any) and the method-table operations invoked. -/
structure ClearResult where
  ret : Int
  s : SSL
  err : Option SslErr
  ops : List MethodOp

/-- Translation of SSL_clear (ssl_lib.c lines 156 to 224). badSession is the
return value of ssl_clear_bad_session and sslNewOk the return value of the
method table ssl_new, both callees outside the gating logic of this
function. -/
def SSL_clear (badSession sslNewOk : Bool) (s : SSL) : ClearResult :=
  match s.method with
  | none => ⟨0, s, some SslErr.noMethodSpecified, []⟩
  | some m =>
    let s1 := if badSession then {s with session := none} else s
    let s2 := {s1 with error := 0, hit := false, shutdown := 0}
    if s2.new_session then ⟨0, s2, some SslErr.internalError, []⟩
    else
      let s3 := { s2 with
        type := 0,
        state := SSL_ST_BEFORE |||
          (if s2.server then SSL_ST_ACCEPT else SSL_ST_CONNECT),
        version := m.version, client_version := m.version,
        rwstate := SSL_NOTHING, rstate := SSL_ST_READ_HEADER,
        init_buf := none }
      let s4 := { ssl_clear_cipher_ctx s3 with first_packet := 0 }
      if s4.in_handshake = false ∧ s4.session.isNone = true ∧ m ≠ s4.ctx.method then
        let s5 := {s4 with method := some s4.ctx.method}
        if sslNewOk then ⟨1, s5, none, [MethodOp.sslFree, MethodOp.sslNew]⟩
        else ⟨0, s5, none, [MethodOp.sslFree, MethodOp.sslNew]⟩
      else ⟨1, s4, none, [MethodOp.sslClear]⟩

/-! Concrete values used by the witness theorems. -/

/-- Sample method table identity (TLS 1.0 version number). -/
def methA : SSL_METHOD := ⟨1, 0x0301⟩

/-- Quiescent BIO: no retry flag raised. -/
def bio0 : BIO := ⟨false, false, false, 0⟩

/-- Session with an empty (length 0) session id. -/
def sess0 : SSL_SESSION := ⟨0x0301, 0, fun _ => 0, 10, 100, 300⟩

/-- Session with a 4-byte session id 01 02 03 04. -/
def sess1 : SSL_SESSION :=
  ⟨0x0301, 4,
   fun i => if i = 0 then 1 else if i = 1 then 2 else if i = 2 then 3
            else if i = 3 then 4 else 0,
   10, 100, 300⟩

/-- Session agreeing with sess1 on the first 4 id bytes but differing in the
declared length, the later bytes and the other fields. -/
def sessW : SSL_SESSION :=
  ⟨0x0301, 6,
   fun i => if i = 0 then 1 else if i = 1 then 2 else if i = 2 then 3
            else if i = 3 then 4 else 7,
   99, 200, 600⟩

/-- Sample context: cache mode SSL_SESS_CACHE_CLIENT, 255 successful
connects so far, a new-session callback installed. -/
def ctx0 : SSL_CTX := ⟨methA, 1, 255, 0, true⟩

/-- Fresh connection on which neither SSL_set_connect_state nor
SSL_set_accept_state has been called. -/
def sBase : SSL :=
  { ctx := ctx0, method := some methA, handshake_func := HandshakeFunc.unset,
    server := false, state := SSL_ST_BEFORE ||| SSL_ST_CONNECT,
    version := 0x0301, client_version := 0x0301, rwstate := SSL_NOTHING,
    rstate := SSL_ST_READ_HEADER, shutdown := 0, error := 0, hit := false,
    new_session := false, in_handshake := false, type := 0, first_packet := 0,
    init_buf := none, enc_read_ctx := none, enc_write_ctx := none,
    expand := none, compress := none, session := none,
    rbio := bio0, wbio := bio0, warn_alert := 0 }

/-! Claim theorems. -/

/-- C1: with i equal to 0, an empty error queue and no pending
want-read/want-write/want-x509-lookup condition, SSL_get_error classifies as
ZERO_RETURN when the protocol version is SSLv2; for any newer version it
classifies as ZERO_RETURN exactly when the shutdown-received flag is set and
the last warning alert recorded is close-notify, and as SYSCALL otherwise. -/
theorem claim_C1_zero_result_classification (s : SSL) (l : Nat) (i : Int)
    (hi : i = 0) (hl : l = 0) (hw : s.rwstate = SSL_NOTHING) :
    SSL_get_error s l i =
      (if s.version = SSL2_VERSION then SSL_ERROR_ZERO_RETURN
       else if s.shutdown &&& SSL_RECEIVED_SHUTDOWN ≠ 0 ∧
              s.warn_alert = SSL_AD_CLOSE_NOTIFY then SSL_ERROR_ZERO_RETURN
       else SSL_ERROR_SYSCALL) := by
  subst hi; subst hl
  by_cases hv : s.version = SSL2_VERSION
  · simp [SSL_get_error, hv, Option.orElse]
  · by_cases hz : s.shutdown &&& SSL_RECEIVED_SHUTDOWN ≠ 0 ∧
        s.warn_alert = SSL_AD_CLOSE_NOTIFY
    · simp [SSL_get_error, hv, hz, Option.orElse]
    · simp [SSL_get_error, hv, hz, Option.orElse]

/-- Witness for C1 at a concrete SSLv2-version connection state. -/
theorem claim_C1_zero_result_classification_witness :
    SSL_get_error { sBase with version := SSL2_VERSION } 0 0 =
      SSL_ERROR_ZERO_RETURN := by
  have h := claim_C1_zero_result_classification
    { sBase with version := SSL2_VERSION } 0 0 rfl rfl rfl
  simpa using h

/-- C2: SSL_get_error returns NONE whenever i is positive; otherwise, with a
non-empty error queue, it returns SYSCALL when the peeked error belongs to
the system library and SSL for any other library, and the result is
independent of the transport retry state (the same for any two connection
states). -/
theorem claim_C2_queue_priority (s t : SSL) (l : Nat) (i : Int) :
    (0 < i → SSL_get_error s l i = SSL_ERROR_NONE) ∧
    (i ≤ 0 → l ≠ 0 →
      SSL_get_error s l i =
        (if ERR_GET_LIB l = ERR_LIB_SYS then SSL_ERROR_SYSCALL
         else SSL_ERROR_SSL) ∧
      SSL_get_error s l i = SSL_get_error t l i) := by
  constructor
  · intro hi
    simp [SSL_get_error, hi]
  · intro hi hl
    have h1 : ¬ i > 0 := by omega
    constructor
    · simp [SSL_get_error, h1, hl]
    · simp [SSL_get_error, h1, hl]

/-- Witness for C2 at concrete inputs: a positive result, and a queued
system-library error code (library id 2 in the top byte). -/
theorem claim_C2_queue_priority_witness :
    SSL_get_error sBase 0 1 = SSL_ERROR_NONE ∧
    SSL_get_error sBase 0x02000000 (-1) = SSL_ERROR_SYSCALL := by
  refine ⟨(claim_C2_queue_priority sBase sBase 0 1).1 (by norm_num), ?_⟩
  have h := ((claim_C2_queue_priority sBase sBase 0x02000000 (-1)).2
    (by norm_num) (by norm_num)).1
  simpa using h

/-- C3: on a connection whose handshake entry point is unset, SSL_read,
SSL_peek, SSL_write and SSL_shutdown each raise the Uninitialized error and
return -1, invoke no method-table operation, and leave the connection state
unchanged. -/
theorem claim_C3_uninitialized_gating (s : SSL)
    (h : s.handshake_func = HandshakeFunc.unset) :
    SSL_read s = Outcome.err SslErr.uninitialized (-1) s ∧
    SSL_peek s = Outcome.err SslErr.uninitialized (-1) s ∧
    SSL_write s = Outcome.err SslErr.uninitialized (-1) s ∧
    SSL_shutdown s = Outcome.err SslErr.uninitialized (-1) s := by
  refine ⟨?_, ?_, ?_, ?_⟩ <;> simp [SSL_read, SSL_peek, SSL_write, SSL_shutdown, h]

/-- Witness for C3 at the concrete fresh connection. -/
theorem claim_C3_uninitialized_gating_witness :
    SSL_read sBase = Outcome.err SslErr.uninitialized (-1) sBase ∧
    SSL_peek sBase = Outcome.err SslErr.uninitialized (-1) sBase ∧
    SSL_write sBase = Outcome.err SslErr.uninitialized (-1) sBase ∧
    SSL_shutdown sBase = Outcome.err SslErr.uninitialized (-1) sBase :=
  claim_C3_uninitialized_gating sBase rfl

/-- C4: with a handshake entry point set, SSL_read returns 0 without
dispatching to the version-specific read once the received-shutdown flag is
set, and SSL_write raises ProtocolIsShutdown and returns -1 without
dispatching to the version-specific write once the sent-shutdown flag is
set. -/
theorem claim_C4_shutdown_short_circuit (s : SSL)
    (h : s.handshake_func ≠ HandshakeFunc.unset) :
    (s.shutdown &&& SSL_RECEIVED_SHUTDOWN ≠ 0 →
      SSL_read s = Outcome.ret 0 { s with rwstate := SSL_NOTHING }) ∧
    (s.shutdown &&& SSL_SENT_SHUTDOWN ≠ 0 →
      SSL_write s =
        Outcome.err SslErr.protocolIsShutdown (-1)
          { s with rwstate := SSL_NOTHING }) := by
  constructor <;> intro hs <;> simp [SSL_read, SSL_write, h, hs]

/-- Witness for C4 at a concrete connection with both shutdown flags set. -/
theorem claim_C4_shutdown_short_circuit_witness :
    SSL_read { sBase with handshake_func := HandshakeFunc.connect, shutdown := 3 } =
      Outcome.ret 0
        { sBase with handshake_func := HandshakeFunc.connect, shutdown := 3,
                     rwstate := SSL_NOTHING } ∧
    SSL_write { sBase with handshake_func := HandshakeFunc.connect, shutdown := 3 } =
      Outcome.err SslErr.protocolIsShutdown (-1)
        { sBase with handshake_func := HandshakeFunc.connect, shutdown := 3,
                     rwstate := SSL_NOTHING } := by
  have h := claim_C4_shutdown_short_circuit
    { sBase with handshake_func := HandshakeFunc.connect, shutdown := 3 }
    (by simp)
  exact ⟨h.1 (by decide), h.2 (by decide)⟩

/-- Auxiliary characterization of the byte-range comparison: it returns 0
exactly when all n compared bytes starting at offset i agree. -/
theorem memcmpAux_eq_zero_iff (a b : Nat → Fin 256) :
    ∀ n i, memcmpAux a b i n = 0 ↔ ∀ j, j < n → a (i + j) = b (i + j) := by
  intro n
  induction n with
  | zero => intro i; simp [memcmpAux]
  | succ n ih =>
    intro i
    by_cases h : a i = b i
    · rw [memcmpAux, if_pos h, ih (i + 1)]
      constructor
      · intro hj j hjn
        match j with
        | 0 => simpa using h
        | k + 1 =>
          have e : i + (k + 1) = (i + 1) + k := by omega
          rw [e]
          exact hj k (by omega)
      · intro hj j hjn
        have e : (i + 1) + j = i + (j + 1) := by omega
        rw [e]
        exact hj (j + 1) (by omega)
    · rw [memcmpAux, if_neg h]
      constructor
      · intro h0
        exfalso
        apply h
        have hv : ((a i : Nat) : Int) = ((b i : Nat) : Int) := by omega
        exact Fin.ext (by exact_mod_cast hv)
      · intro hj
        exact absurd (by simpa using hj 0 (by omega)) h

/-- C5: the session-cache comparison judges two sessions equal (result 0)
exactly when their protocol versions are equal, their declared session-id
lengths are equal, and every byte of the session id up to that length
agrees; all other fields are irrelevant (the theorem quantifies over
arbitrary values of the remaining fields, so any hash collision is also
irrelevant). -/
theorem claim_C5_session_equality (a b : SSL_SESSION) :
    SSL_SESSION_cmp a b = 0 ↔
      (a.ssl_version = b.ssl_version ∧
       a.session_id_length = b.session_id_length ∧
       ∀ i, i < a.session_id_length → a.session_id i = b.session_id i) := by
  unfold SSL_SESSION_cmp
  by_cases hv : a.ssl_version = b.ssl_version
  · by_cases hn : a.session_id_length = b.session_id_length
    · rw [if_neg (by simpa using hv), if_neg (by simpa using hn)]
      unfold memcmp
      rw [memcmpAux_eq_zero_iff]
      constructor
      · intro hj
        exact ⟨hv, hn, fun i hi => by simpa using hj i hi⟩
      · intro hj j hjn
        simpa using hj.2.2 j hjn
    · rw [if_neg (by simpa using hv), if_pos (by simpa using hn)]
      simp [hn]
  · rw [if_pos (by simpa using hv)]
    simp [hv]

/-- Witness for C5: two concrete sessions with equal version and id bytes
but different cipher, time, timeout and declared-length-tail values compare
equal; the proof applies the claim theorem in the reverse direction. -/
theorem claim_C5_session_equality_witness :
    SSL_SESSION_cmp sess1 { sess1 with cipher_id := 77, time := 1, timeout := 2 } = 0 :=
  (claim_C5_session_equality sess1
    { sess1 with cipher_id := 77, time := 1, timeout := 2 }).mpr
    ⟨rfl, rfl, fun i _ => rfl⟩

/-- Disjoint OR is addition: when x fits below the shift amount, ORing in a
left-shifted value is the same as adding it. -/
theorem lor_shift_eq_add {x : Nat} (y n : Nat) (hx : x < 2 ^ n) :
    x ||| y <<< n = x + y * 2 ^ n := by
  calc x ||| y <<< n = 2 ^ n * y ||| x := by
        rw [Nat.shiftLeft_eq, Nat.lor_comm, Nat.mul_comm]
    _ = 2 ^ n * y + x := (Nat.mul_add_lt_is_or hx y).symm
    _ = x + y * 2 ^ n := by ring

/-- C8: the cache hash function packs the first 4 session-id bytes
little-endian (byte 0 least significant, byte 3 shifted left 24 bits), and
consequently any two sessions agreeing on those 4 bytes hash identically
regardless of every other field and of the remaining id bytes. -/
theorem claim_C8_hash_little_endian (a b : SSL_SESSION)
    (h : ∀ i, i < 4 → a.session_id i = b.session_id i) :
    SSL_SESSION_hash a =
      (a.session_id 0 : Nat) + (a.session_id 1 : Nat) * 2 ^ 8 +
      (a.session_id 2 : Nat) * 2 ^ 16 + (a.session_id 3 : Nat) * 2 ^ 24 ∧
    SSL_SESSION_hash a = SSL_SESSION_hash b := by
  have hb : ∀ k, (a.session_id k : Nat) < 2 ^ 8 := fun k => (a.session_id k).isLt
  constructor
  · unfold SSL_SESSION_hash
    rw [lor_shift_eq_add _ 8 (hb 0),
        lor_shift_eq_add _ 16 (by have h0 := hb 0; have h1 := hb 1; omega),
        lor_shift_eq_add _ 24
          (by have h0 := hb 0; have h1 := hb 1; have h2 := hb 2; omega)]
  · unfold SSL_SESSION_hash
    rw [h 0 (by omega), h 1 (by omega), h 2 (by omega), h 3 (by omega)]

/-- Witness for C8: two concrete sessions agreeing on the first 4 id bytes
(01 02 03 04) but differing in later bytes, declared length and all other
fields; the hypothesis is discharged by computation. -/
theorem claim_C8_hash_little_endian_witness :
    (∀ i, i < 4 → sess1.session_id i = sessW.session_id i) ∧
    (SSL_SESSION_hash sess1 =
      (sess1.session_id 0 : Nat) + (sess1.session_id 1 : Nat) * 2 ^ 8 +
      (sess1.session_id 2 : Nat) * 2 ^ 16 + (sess1.session_id 3 : Nat) * 2 ^ 24 ∧
     SSL_SESSION_hash sess1 = SSL_SESSION_hash sessW) :=
  ⟨by decide, claim_C8_hash_little_endian sess1 sessW (by decide)⟩

/-- Connection holding a session with an empty session id, in a context
whose cache mode is SSL_SESS_CACHE_CLIENT, with auto-clear enabled and the
successful-connect counter at 255 (a multiple-of-256 boundary). -/
def sC7 : SSL := { sBase with session := some sess0 }

/-- C6: when the current session has session-id length 0, the
update-on-success cache step makes no external call at all: no insertion
into the cache, no new-session callback, no flush, hence the cache contents
and size are unchanged. -/
theorem claim_C6_zero_length_never_cached (addOk cbKeeps : Bool) (now : Nat)
    (s : SSL) (mode : Nat) (sess : SSL_SESSION) (hs : s.session = some sess)
    (h0 : sess.session_id_length = 0) :
    ssl_update_cache addOk cbKeeps now s mode = [] := by
  simp [ssl_update_cache, hs, h0]

/-- Witness for C6 at the concrete connection holding the empty-id session. -/
theorem claim_C6_zero_length_never_cached_witness :
    ssl_update_cache true true 7 sC7 SSL_SESS_CACHE_CLIENT = [] :=
  claim_C6_zero_length_never_cached true true 7 sC7 SSL_SESS_CACHE_CLIENT sess0
    rfl rfl

/-- C7 counterexample: the claim as stated fails. At the concrete connection
sC7, auto-clearing is not suppressed, the cache mode fully includes the
requested mode SSL_SESS_CACHE_CLIENT, and the role-matching
successful-connect counter (255) is at a multiple-of-256 boundary, yet no
expiry flush is triggered: the current session has session-id length 0, so
ssl_update_cache returns before the auto-flush check. -/
theorem claim_C7_counterexample_zero_length_id :
    sC7.ctx.session_cache_mode &&& SSL_SESS_CACHE_NO_AUTO_CLEAR = 0 ∧
    sC7.ctx.session_cache_mode &&& SSL_SESS_CACHE_CLIENT = SSL_SESS_CACHE_CLIENT ∧
    (sC7.ctx.sess_connect_good + 1) % 256 = 0 ∧
    CacheEvent.flushSessions 1000 ∉
      ssl_update_cache true true 1000 sC7 SSL_SESS_CACHE_CLIENT := by
  decide

/-- C7 as amended: provided additionally that the current session has a
nonzero session-id length, when auto-clearing is not suppressed and the
cache mode fully includes the requested mode, ssl_update_cache triggers an
expiry flush with cutoff equal to the current time exactly when the
role-matching successful-handshake counter is at a multiple-of-256 boundary
(counter plus 1 divisible by 256, i.e. after every 256th successful
handshake per role), and at no other count. -/
theorem claim_C7_amended_flush_every_256 (addOk cbKeeps : Bool) (now : Nat)
    (s : SSL) (mode : Nat) (sess : SSL_SESSION) (hs : s.session = some sess)
    (h0 : sess.session_id_length ≠ 0)
    (hac : s.ctx.session_cache_mode &&& SSL_SESS_CACHE_NO_AUTO_CLEAR = 0)
    (hmode : s.ctx.session_cache_mode &&& mode = mode) :
    (CacheEvent.flushSessions now ∈ ssl_update_cache addOk cbKeeps now s mode ↔
      ((if mode &&& SSL_SESS_CACHE_CLIENT ≠ 0 then s.ctx.sess_connect_good
        else s.ctx.sess_accept_good) + 1) % 256 = 0) := by
  have hcnt : ∀ c : Nat, (c &&& 0xff = 0xff) ↔ (c + 1) % 256 = 0 := by
    intro c
    have h := Nat.and_pow_two_sub_one_eq_mod c 8
    norm_num at h
    rw [h]
    omega
  simp only [ssl_update_cache, hs, h0, if_false, List.mem_append]
  split_ifs <;> simp_all [hcnt]

/-- Witness for the amended C7 at a concrete connection one handshake short
of the boundary on the client counter (255 successful connects, flush
fires) applied through the amended theorem. -/
theorem claim_C7_amended_flush_every_256_witness :
    CacheEvent.flushSessions 1000 ∈
      ssl_update_cache true true 1000 { sC7 with session := some sess1 }
        SSL_SESS_CACHE_CLIENT := by
  have h := claim_C7_amended_flush_every_256 true true 1000
    { sC7 with session := some sess1 } SSL_SESS_CACHE_CLIENT sess1
    rfl (by decide) (by decide) (by decide)
  rw [h]
  decide

/-- C9: on a connection whose handshake entry point is unset, SSL_connect
and SSL_accept do not fail with Uninitialized: each first performs exactly
the initialization of SSL_set_connect_state respectively
SSL_set_accept_state (role set, shutdown flags cleared, state set to BEFORE
combined with the role bit, entry point installed, per-connection cipher and
compression contexts cleared) and then dispatches to the method table
connect respectively accept operation. -/
theorem claim_C9_connect_accept_auto_init (s : SSL)
    (h : s.handshake_func = HandshakeFunc.unset) :
    SSL_connect s = Outcome.dispatch MethodOp.sslConnect (SSL_set_connect_state s) ∧
    SSL_accept s = Outcome.dispatch MethodOp.sslAccept (SSL_set_accept_state s) ∧
    (SSL_set_connect_state s).server = false ∧
    (SSL_set_connect_state s).shutdown = 0 ∧
    (SSL_set_connect_state s).state = SSL_ST_CONNECT ||| SSL_ST_BEFORE ∧
    (SSL_set_connect_state s).handshake_func = HandshakeFunc.connect ∧
    (SSL_set_connect_state s).enc_read_ctx = none ∧
    (SSL_set_connect_state s).enc_write_ctx = none ∧
    (SSL_set_connect_state s).expand = none ∧
    (SSL_set_connect_state s).compress = none ∧
    (SSL_set_accept_state s).server = true ∧
    (SSL_set_accept_state s).shutdown = 0 ∧
    (SSL_set_accept_state s).state = SSL_ST_ACCEPT ||| SSL_ST_BEFORE ∧
    (SSL_set_accept_state s).handshake_func = HandshakeFunc.accept ∧
    (SSL_set_accept_state s).enc_read_ctx = none ∧
    (SSL_set_accept_state s).enc_write_ctx = none ∧
    (SSL_set_accept_state s).expand = none ∧
    (SSL_set_accept_state s).compress = none := by
  simp [SSL_connect, SSL_accept, SSL_set_connect_state, SSL_set_accept_state,
        ssl_clear_cipher_ctx, h]

/-- Witness for C9 at the concrete fresh connection. -/
theorem claim_C9_connect_accept_auto_init_witness :
    SSL_connect sBase =
      Outcome.dispatch MethodOp.sslConnect (SSL_set_connect_state sBase) ∧
    SSL_accept sBase =
      Outcome.dispatch MethodOp.sslAccept (SSL_set_accept_state sBase) ∧
    (SSL_set_connect_state sBase).server = false ∧
    (SSL_set_connect_state sBase).shutdown = 0 ∧
    (SSL_set_connect_state sBase).state = SSL_ST_CONNECT ||| SSL_ST_BEFORE ∧
    (SSL_set_connect_state sBase).handshake_func = HandshakeFunc.connect ∧
    (SSL_set_connect_state sBase).enc_read_ctx = none ∧
    (SSL_set_connect_state sBase).enc_write_ctx = none ∧
    (SSL_set_connect_state sBase).expand = none ∧
    (SSL_set_connect_state sBase).compress = none ∧
    (SSL_set_accept_state sBase).server = true ∧
    (SSL_set_accept_state sBase).shutdown = 0 ∧
    (SSL_set_accept_state sBase).state = SSL_ST_ACCEPT ||| SSL_ST_BEFORE ∧
    (SSL_set_accept_state sBase).handshake_func = HandshakeFunc.accept ∧
    (SSL_set_accept_state sBase).enc_read_ctx = none ∧
    (SSL_set_accept_state sBase).enc_write_ctx = none ∧
    (SSL_set_accept_state sBase).expand = none ∧
    (SSL_set_accept_state sBase).compress = none :=
  claim_C9_connect_accept_auto_init sBase rfl

/-- C10: SSL_clear with the pending-new-session flag set fails with an
internal error and returns 0 without performing the full reset: the state,
version, init buffer and cipher contexts are left as they were and no
method-table operation is invoked. With no method table it fails leaving the
connection untouched. The full reset (state BEFORE combined with the role,
version re-taken from the method table, init buffer freed, cipher contexts
cleared, a method-table teardown or clear operation invoked) happens exactly
in the remaining case: flag clear and method table present. -/
theorem claim_C10_clear_renegotiation_guard (s : SSL) (bad newOk : Bool) :
    (s.method = none →
      SSL_clear bad newOk s = ⟨0, s, some SslErr.noMethodSpecified, []⟩) ∧
    (∀ m, s.method = some m → s.new_session = true →
      (SSL_clear bad newOk s).ret = 0 ∧
      (SSL_clear bad newOk s).err = some SslErr.internalError ∧
      (SSL_clear bad newOk s).ops = [] ∧
      (SSL_clear bad newOk s).s.state = s.state ∧
      (SSL_clear bad newOk s).s.version = s.version ∧
      (SSL_clear bad newOk s).s.init_buf = s.init_buf ∧
      (SSL_clear bad newOk s).s.enc_read_ctx = s.enc_read_ctx ∧
      (SSL_clear bad newOk s).s.enc_write_ctx = s.enc_write_ctx) ∧
    (∀ m, s.method = some m → s.new_session = false →
      (SSL_clear bad newOk s).s.state =
        SSL_ST_BEFORE ||| (if s.server then SSL_ST_ACCEPT else SSL_ST_CONNECT) ∧
      (SSL_clear bad newOk s).s.version = m.version ∧
      (SSL_clear bad newOk s).s.init_buf = none ∧
      (SSL_clear bad newOk s).s.enc_read_ctx = none ∧
      (SSL_clear bad newOk s).s.enc_write_ctx = none ∧
      (SSL_clear bad newOk s).err = none ∧
      ((SSL_clear bad newOk s).ops = [MethodOp.sslClear] ∨
       (SSL_clear bad newOk s).ops = [MethodOp.sslFree, MethodOp.sslNew])) := by
  refine ⟨?_, ?_, ?_⟩
  · intro h
    simp [SSL_clear, h]
  · intro m hm hn
    cases bad <;> simp [SSL_clear, hm, hn]
  · intro m hm hn
    cases bad <;> cases newOk <;>
      simp [SSL_clear, ssl_clear_cipher_ctx, hm, hn] <;>
      split_ifs <;> simp

/-- Witness for C10 at concrete connections: the guard case (flag set) and
the reset case (flag clear), both with the sample method table. -/
theorem claim_C10_clear_renegotiation_guard_witness :
    ((SSL_clear false true { sBase with new_session := true }).ret = 0 ∧
     (SSL_clear false true { sBase with new_session := true }).err =
       some SslErr.internalError ∧
     (SSL_clear false true { sBase with new_session := true }).ops = []) ∧
    ((SSL_clear false true sBase).s.version = methA.version ∧
     (SSL_clear false true sBase).err = none) := by
  have h1 := (claim_C10_clear_renegotiation_guard
    { sBase with new_session := true } false true).2.1 methA rfl rfl
  have h2 := (claim_C10_clear_renegotiation_guard sBase false true).2.2 methA rfl rfl
  exact ⟨⟨h1.1, h1.2.1, h1.2.2.1⟩, ⟨h2.2.1, h2.2.2.2.2.2.1⟩⟩

end SslLib
